import Mathlib

/-!
Verification of the iptables rule-synthesis engine
(`engines/qemu/network/netpool.go`-style `ipTableRules`) of
taskcluster-worker.  The function `ipTableRules` below is a shallow
embedding of the Go function of the same name: it maps a tap-device
name, an IP prefix, a list of VPN connections and a delete flag to the
ordered list of iptables command token-lists.
-/

namespace Network

/-- Maximum time to wait for the xtables lock when using iptables.
Embeds the Go constant `xtableLockWait = "3"`. -/
def xtableLockWait : String := "3"

/-- Modelled from the spec: the constant `metaDataIP` is referenced by
`ipTableRules` but defined elsewhere in the package (not in the sources
given here).  The source comment and the spec fix it as the metadata
service address 169.254.169.254. -/
def metaDataIP : String := "169.254.169.254"

/-- A VPN connection as seen by `ipTableRules`: a device name
(`vpn.DeviceName()`) and the routes (`vpn.Routes()`).  A route is the
result of `ip.To4()` followed by `String()`: `some s` when the address
is IPv4-representable (rendered as the string `s`), `none` for an IPv6
address (where `To4` returns nil and the route is skipped). -/
structure VPN where
  deviceName : String
  routes : List (Option String)
deriving DecidableEq

/-- Embeds the local closure `prefixCommands`: prepend the fixed token
list `pre` to every rule body. -/
def withPre (pre : List String) (rules : List (List String)) : List (List String) :=
  rules.map (fun rule => pre ++ rule)

/-- `ruleAction`: `-A` to append, `-D` to delete (Go lines 32-36). -/
def ruleAction (del : Bool) : String := if del then "-D" else "-A"

/-- `chainAction`: `-N` to create a chain, `-X` to destroy (Go lines 33-37). -/
def chainAction (del : Bool) : String := if del then "-X" else "-N"

/-- `subnet := ipPrefix + ".0/24"` (Go line 22). -/
def subnet (ipPrefix : String) : String := ipPrefix ++ ".0/24"

/-- `gateway := ipPrefix + ".1"` (Go line 23). -/
def gateway (ipPrefix : String) : String := ipPrefix ++ ".1"

/-- Create/delete custom chains for this tap device (Go lines 40-45). -/
def chains (tapDevice : String) (del : Bool) : List (List String) :=
  withPre ["iptables", "-w", xtableLockWait, chainAction del]
    [["input_" ++ tapDevice],
     ["output_" ++ tapDevice],
     ["fwd_input_" ++ tapDevice],
     ["fwd_output_" ++ tapDevice]]

/-- Rules for jumping to custom chains for this tap device (Go lines 48-53). -/
def rules (tapDevice : String) (del : Bool) : List (List String) :=
  withPre ["iptables", "-w", xtableLockWait, ruleAction del]
    [["INPUT", "-i", tapDevice, "-j", "input_" ++ tapDevice],
     ["OUTPUT", "-o", tapDevice, "-j", "output_" ++ tapDevice],
     ["FORWARD", "-i", tapDevice, "-j", "fwd_input_" ++ tapDevice],
     ["FORWARD", "-o", tapDevice, "-j", "fwd_output_" ++ tapDevice]]

/-- Rules for nat from this subnet (Go lines 56-58). -/
def nat (ipPrefix : String) (del : Bool) : List (List String) :=
  withPre ["iptables", "-w", xtableLockWait, "-t", "nat", ruleAction del]
    [["POSTROUTING", "-o", "eth0", "-s", subnet ipPrefix, "-j", "MASQUERADE"]]

/-- Rules for filtering INPUT from this tap device (Go lines 61-73). -/
def inputRules (tapDevice ipPrefix : String) (del : Bool) : List (List String) :=
  withPre ["iptables", "-w", xtableLockWait, ruleAction del, "input_" ++ tapDevice]
    [["-p", "tcp", "-s", subnet ipPrefix, "-d", metaDataIP, "-m", "tcp", "--dport", "80",
      "-m", "state", "--state", "NEW,ESTABLISHED", "-j", "ACCEPT"],
     ["-p", "tcp", "-s", subnet ipPrefix, "-d", gateway ipPrefix, "-m", "tcp", "--dport", "53",
      "-m", "state", "--state", "NEW,ESTABLISHED", "-j", "ACCEPT"],
     ["-p", "udp", "-s", subnet ipPrefix, "-d", gateway ipPrefix, "-m", "udp", "--dport", "53",
      "-m", "state", "--state", "NEW,ESTABLISHED", "-j", "ACCEPT"],
     ["-s", "0.0.0.0", "-d", "255.255.255.255", "-p", "udp", "-m", "udp",
      "--sport", "68", "--dport", "67", "-j", "ACCEPT"],
     ["-s", subnet ipPrefix, "-d", gateway ipPrefix, "-p", "udp", "-m", "udp",
      "--sport", "68", "--dport", "67", "-j", "ACCEPT"],
     ["-s", subnet ipPrefix, "-d", metaDataIP, "-j", "REJECT", "--reject-with",
      "icmp-port-unreachable"],
     ["-j", "REJECT", "--reject-with", "icmp-host-unreachable"]]

/-- Rules for filtering OUTPUT to this tap device (Go lines 76-86). -/
def outputRules (tapDevice ipPrefix : String) (del : Bool) : List (List String) :=
  withPre ["iptables", "-w", xtableLockWait, ruleAction del, "output_" ++ tapDevice]
    [["-p", "tcp", "-s", metaDataIP, "-d", subnet ipPrefix, "-m", "tcp", "--sport", "80",
      "-m", "state", "--state", "ESTABLISHED", "-j", "ACCEPT"],
     ["-p", "udp", "-s", gateway ipPrefix, "-d", subnet ipPrefix, "-m", "udp", "--sport", "53",
      "-m", "state", "--state", "ESTABLISHED", "-j", "ACCEPT"],
     ["-p", "tcp", "-s", gateway ipPrefix, "-d", subnet ipPrefix, "-m", "tcp", "--sport", "53",
      "-m", "state", "--state", "ESTABLISHED", "-j", "ACCEPT"],
     ["-p", "udp", "-s", gateway ipPrefix, "-m", "udp", "--sport", "67", "--dport", "68",
      "-j", "ACCEPT"],
     ["-j", "REJECT", "--reject-with", "icmp-net-prohibited"]]

/-- The VPN forwarding rule bodies appended to `forwardVPNInputRules`
in the Go loop (lines 91-109): one per IPv4-representable route, in
input order; IPv6 routes (`none`) are skipped. -/
def forwardVPNInputRules (sub : String) (vpns : List VPN) : List (List String) :=
  (vpns.map (fun vpn =>
    vpn.routes.filterMap (fun ip =>
      ip.map (fun route =>
        ["-d", route, "-o", vpn.deviceName, "-s", sub, "-j", "ACCEPT"])))).flatten

/-- The VPN forwarding rule bodies appended to `forwardVPNOutputRules`
in the Go loop (lines 91-109). -/
def forwardVPNOutputRules (sub : String) (vpns : List VPN) : List (List String) :=
  (vpns.map (fun vpn =>
    vpn.routes.filterMap (fun ip =>
      ip.map (fun route =>
        ["-s", route, "-i", vpn.deviceName, "-d", sub, "-m", "state", "--state",
         "RELATED,ESTABLISHED", "-j", "ACCEPT"])))).flatten

/-- Rules for filtering FORWARD from this tap device (Go lines 112-128). -/
def forwardInputRules (tapDevice ipPrefix : String) (vpns : List VPN) (del : Bool) :
    List (List String) :=
  withPre ["iptables", "-w", xtableLockWait, ruleAction del, "fwd_input_" ++ tapDevice]
    (forwardVPNInputRules (subnet ipPrefix) vpns ++
     [["-d", "10.0.0.0/8", "-j", "REJECT", "--reject-with", "icmp-net-unreachable"],
      ["-d", "172.16.0.0/12", "-j", "REJECT", "--reject-with", "icmp-net-unreachable"],
      ["-d", "169.254.0.0/16", "-j", "REJECT", "--reject-with", "icmp-net-unreachable"],
      ["-d", "192.168.0.0/16", "-j", "REJECT", "--reject-with", "icmp-net-unreachable"],
      ["-o", "eth0", "-s", subnet ipPrefix, "-j", "ACCEPT"],
      ["-o", tapDevice, "-s", subnet ipPrefix, "-j", "ACCEPT"],
      ["-j", "REJECT", "--reject-with", "icmp-net-prohibited"]])

/-- Rules for filtering FORWARD to this tap device (Go lines 131-147). -/
def forwardOutputRules (tapDevice ipPrefix : String) (vpns : List VPN) (del : Bool) :
    List (List String) :=
  withPre ["iptables", "-w", xtableLockWait, ruleAction del, "fwd_output_" ++ tapDevice]
    (forwardVPNOutputRules (subnet ipPrefix) vpns ++
     [["-s", "10.0.0.0/8", "-j", "DROP"],
      ["-s", "172.16.0.0/12", "-j", "DROP"],
      ["-s", "169.254.0.0/16", "-j", "DROP"],
      ["-s", "192.168.0.0/16", "-j", "DROP"],
      ["-i", "eth0", "-d", subnet ipPrefix, "-m", "state", "--state", "RELATED,ESTABLISHED",
       "-j", "ACCEPT"],
      ["-i", tapDevice, "-s", subnet ipPrefix, "-j", "ACCEPT"],
      ["-j", "DROP"]])

/-- Shallow embedding of the Go function `ipTableRules` (lines 21-171):
the full ordered RuleSet for one tap device, one operation.  `del =
false` is install, `del = true` is uninstall; the Go `debug(...)` call
for skipped IPv6 routes has no effect on the returned command list. -/
def ipTableRules (tapDevice ipPrefix : String) (vpns : List VPN) (del : Bool) :
    List (List String) :=
  if !del then
    nat ipPrefix del ++ chains tapDevice del ++ rules tapDevice del ++
    inputRules tapDevice ipPrefix del ++ outputRules tapDevice ipPrefix del ++
    forwardOutputRules tapDevice ipPrefix vpns del ++
    forwardInputRules tapDevice ipPrefix vpns del
  else
    forwardInputRules tapDevice ipPrefix vpns del ++
    forwardOutputRules tapDevice ipPrefix vpns del ++
    outputRules tapDevice ipPrefix del ++ inputRules tapDevice ipPrefix del ++
    rules tapDevice del ++ chains tapDevice del ++ nat ipPrefix del

/-! ## Derived notions used by the statements -/

/-- The four per-device chain names created for a tap device. -/
def chainNames (tapDevice : String) : List String :=
  ["input_" ++ tapDevice, "output_" ++ tapDevice,
   "fwd_input_" ++ tapDevice, "fwd_output_" ++ tapDevice]

/-- The jump targets of a command: every token that immediately follows a
`-j` token. -/
def jumpTargets (cmd : List String) : List String :=
  (cmd.zip cmd.tail).filterMap (fun pr => if pr.1 = "-j" then some pr.2 else none)

/-- A command references chain `c` when `c` is its append target (the token
after a position-3 `-A`) or one of its jump targets. -/
def refersToChain (c : String) (cmd : List String) : Prop :=
  (cmd[3]? = some "-A" ∧ cmd[4]? = some c) ∨ c ∈ jumpTargets cmd

instance (c : String) (cmd : List String) : Decidable (refersToChain c cmd) := by
  unfold refersToChain; infer_instance

/-- A command creates chain `c` when its action token is `-N` and the next
token is `c`. -/
def createsChain (c : String) (cmd : List String) : Prop :=
  cmd[3]? = some "-N" ∧ cmd[4]? = some c

instance (c : String) (cmd : List String) : Decidable (createsChain c cmd) := by
  unfold createsChain; infer_instance

/-- Total number of IPv4-representable routes across the VPN connections. -/
def ipv4Routes (vpns : List VPN) : Nat :=
  (vpns.map (fun vpn => (vpn.routes.filterMap id).length)).sum

/-- Replace the action token at position `i` of every command of a group. -/
def flipGroup (i : Nat) (a : String) (g : List (List String)) : List (List String) :=
  g.map (fun cmd => cmd.set i a)

/-- `Bool` test that the char list `needle` occurs as a contiguous
subsequence of `hay` starting at its head. -/
def leadsWith : List Char → List Char → Bool
  | [], _ => true
  | _ :: _, [] => false
  | a :: as, b :: bs => a = b && leadsWith as bs

/-- `Bool` test that the char list `needle` occurs contiguously anywhere in
`hay`. -/
def hasSeq (needle : List Char) : List Char → Bool
  | [] => leadsWith needle []
  | c :: rest => leadsWith needle (c :: rest) || hasSeq needle rest

/-! ## Helper lemmas -/

lemma mem_withPre {pre : List String} {rs : List (List String)} {cmd : List String}
    (h : cmd ∈ withPre pre rs) : ∃ r, r ∈ rs ∧ cmd = pre ++ r := by
  rcases List.mem_map.mp h with ⟨r, hr, he⟩
  exact ⟨r, hr, he.symm⟩

lemma length_filterMap_optmap {α : Type} (f : String → α) (rs : List (Option String)) :
    (rs.filterMap (fun ip => ip.map f)).length = (rs.filterMap id).length := by
  induction rs with
  | nil => rfl
  | cons head tail ih => cases head <;> simp [List.filterMap_cons, ih]

lemma length_forwardVPNInputRules (s : String) (v : List VPN) :
    (forwardVPNInputRules s v).length = ipv4Routes v := by
  unfold forwardVPNInputRules ipv4Routes
  induction v with
  | nil => rfl
  | cons vpn rest ih => simp_all [length_filterMap_optmap]

lemma length_forwardVPNOutputRules (s : String) (v : List VPN) :
    (forwardVPNOutputRules s v).length = ipv4Routes v := by
  unfold forwardVPNOutputRules ipv4Routes
  induction v with
  | nil => rfl
  | cons vpn rest ih => simp_all [length_filterMap_optmap]

lemma length_ipTableRules (d p : String) (v : List VPN) (del : Bool) :
    (ipTableRules d p v del).length = 35 + 2 * ipv4Routes v := by
  cases del <;>
    simp [ipTableRules, nat, chains, rules, inputRules, outputRules,
      forwardInputRules, forwardOutputRules, withPre,
      length_forwardVPNInputRules, length_forwardVPNOutputRules] <;>
    omega

lemma flipGroup3_withPre (a t₁ t₂ t₃ t₄ : String) (rest : List String)
    (rs : List (List String)) :
    flipGroup 3 a (withPre (t₁ :: t₂ :: t₃ :: t₄ :: rest) rs) =
      withPre (t₁ :: t₂ :: t₃ :: a :: rest) rs := by
  simp only [flipGroup, withPre, List.map_map]
  exact List.map_congr_left fun r _ => rfl

lemma flipGroup5_withPre (a t₁ t₂ t₃ t₄ t₅ t₆ : String) (rest : List String)
    (rs : List (List String)) :
    flipGroup 5 a (withPre (t₁ :: t₂ :: t₃ :: t₄ :: t₅ :: t₆ :: rest) rs) =
      withPre (t₁ :: t₂ :: t₃ :: t₄ :: t₅ :: a :: rest) rs := by
  simp only [flipGroup, withPre, List.map_map]
  exact List.map_congr_left fun r _ => rfl

lemma all_action3_withPre (t₁ t₂ t₃ t₄ : String) (rest : List String)
    (rs : List (List String)) :
    ((withPre (t₁ :: t₂ :: t₃ :: t₄ :: rest) rs).all fun cmd => cmd[3]? == some t₄) = true := by
  rw [List.all_eq_true]
  intro cmd h
  obtain ⟨r, _, rfl⟩ := mem_withPre h
  simp

lemma all_action5_withPre (t₁ t₂ t₃ t₄ t₅ t₆ : String) (rest : List String)
    (rs : List (List String)) :
    ((withPre (t₁ :: t₂ :: t₃ :: t₄ :: t₅ :: t₆ :: rest) rs).all
      fun cmd => cmd[5]? == some t₆) = true := by
  rw [List.all_eq_true]
  intro cmd h
  obtain ⟨r, _, rfl⟩ := mem_withPre h
  simp

lemma getElem3_of_mem_withPre {t₁ t₂ t₃ : String} {rest : List String}
    {rs : List (List String)} {cmd : List String}
    (h : cmd ∈ withPre (t₁ :: t₂ :: t₃ :: rest) rs) :
    cmd[0]? = some t₁ ∧ cmd[1]? = some t₂ ∧ cmd[2]? = some t₃ := by
  obtain ⟨r, _, rfl⟩ := mem_withPre h
  simp

lemma ne_of_data_not_pre {s u : String} (t : String) (h : ¬ s.data <+: u.data) :
    s ++ t ≠ u := by
  intro he
  exact h ⟨t.data, by rw [← String.data_append, he]⟩

lemma ne_of_data_not_suf {s u : String} (t : String) (h : ¬ s.data <:+ u.data) :
    t ++ s ≠ u := by
  intro he
  exact h ⟨t.data, by rw [← String.data_append, he]⟩

lemma chainName_ne_MASQUERADE {ch d : String} (hch : ch ∈ chainNames d) :
    ch ≠ "MASQUERADE" := by
  simp only [chainNames, List.mem_cons, List.not_mem_nil, or_false] at hch
  rcases hch with rfl | rfl | rfl | rfl
  · exact ne_of_data_not_pre d (by decide)
  · exact ne_of_data_not_pre d (by decide)
  · exact ne_of_data_not_pre d (by decide)
  · exact ne_of_data_not_pre d (by decide)

/-- The NAT command never references a per-device chain: its action token
is `-t` at position 3, and its only jump target is `MASQUERADE`. -/
lemma not_refers_nat (ch d p : String) (hch : ch ∈ chainNames d) :
    ¬ refersToChain ch
      ["iptables", "-w", xtableLockWait, "-t", "nat", "-A", "POSTROUTING", "-o",
       "eth0", "-s", subnet p, "-j", "MASQUERADE"] := by
  have hsub : subnet p ≠ "-j" := ne_of_data_not_suf (s := ".0/24") p (by decide)
  intro h
  rcases h with ⟨h3, _⟩ | hj
  · simp [xtableLockWait] at h3
  · have hjt : jumpTargets
        ["iptables", "-w", xtableLockWait, "-t", "nat", "-A", "POSTROUTING", "-o",
         "eth0", "-s", subnet p, "-j", "MASQUERADE"] = ["MASQUERADE"] := by
      simp [jumpTargets, List.filterMap_cons, xtableLockWait, hsub]
    rw [hjt] at hj
    simp only [List.mem_cons, List.not_mem_nil, or_false] at hj
    exact chainName_ne_MASQUERADE hch hj

/-- A chain-creation command references no chain: its action token is `-N`
and it has no jump target. -/
lemma not_refers_chains (ch d name : String) (_hch : ch ∈ chainNames d) :
    ¬ refersToChain ch ["iptables", "-w", xtableLockWait, "-N", name] := by
  intro h
  rcases h with ⟨h3, _⟩ | hj
  · simp [xtableLockWait] at h3
  · have hjt : jumpTargets ["iptables", "-w", xtableLockWait, "-N", name] = [] := by
      simp [jumpTargets, List.filterMap_cons, xtableLockWait]
    rw [hjt] at hj
    exact absurd hj (List.not_mem_nil _)

/-- In the install RuleSet, any command referencing a per-device chain sits
at index 5 or later: index 0 is the NAT command and indices 1-4 are the
chain creations, none of which references a chain. -/
lemma ref_index_ge5 (d p : String) (v : List VPN) (i : Nat) (ch : String)
    (cmd : List String) (hch : ch ∈ chainNames d)
    (hi : (ipTableRules d p v false)[i]? = some cmd)
    (href : refersToChain ch cmd) : 5 ≤ i := by
  have hI : ipTableRules d p v false =
      ["iptables", "-w", xtableLockWait, "-t", "nat", "-A", "POSTROUTING", "-o",
       "eth0", "-s", subnet p, "-j", "MASQUERADE"] ::
      ["iptables", "-w", xtableLockWait, "-N", "input_" ++ d] ::
      ["iptables", "-w", xtableLockWait, "-N", "output_" ++ d] ::
      ["iptables", "-w", xtableLockWait, "-N", "fwd_input_" ++ d] ::
      ["iptables", "-w", xtableLockWait, "-N", "fwd_output_" ++ d] ::
      (rules d false ++ inputRules d p false ++ outputRules d p false ++
       forwardOutputRules d p v false ++ forwardInputRules d p v false) := rfl
  rcases i with _ | (_ | (_ | (_ | (_ | i5))))
  · rw [hI] at hi
    simp only [List.getElem?_cons_zero, Option.some.injEq] at hi
    subst hi
    exact absurd href (not_refers_nat ch d p hch)
  · rw [hI] at hi
    simp only [List.getElem?_cons_succ, List.getElem?_cons_zero, Option.some.injEq] at hi
    subst hi
    exact absurd href (not_refers_chains ch d _ hch)
  · rw [hI] at hi
    simp only [List.getElem?_cons_succ, List.getElem?_cons_zero, Option.some.injEq] at hi
    subst hi
    exact absurd href (not_refers_chains ch d _ hch)
  · rw [hI] at hi
    simp only [List.getElem?_cons_succ, List.getElem?_cons_zero, Option.some.injEq] at hi
    subst hi
    exact absurd href (not_refers_chains ch d _ hch)
  · rw [hI] at hi
    simp only [List.getElem?_cons_succ, List.getElem?_cons_zero, Option.some.injEq] at hi
    subst hi
    exact absurd href (not_refers_chains ch d _ hch)
  · omega

/-! ## Claims -/

/-- C10: for every input and both modes the RuleSet has exactly
`35 + 2 * r` commands, where `r` is the number of IPv4-representable VPN
routes, and install and uninstall RuleSets have equal length. -/
theorem ruleset_length (d p : String) (v : List VPN) (del : Bool) :
    (ipTableRules d p v del).length = 35 + 2 * ipv4Routes v ∧
    (ipTableRules d p v false).length = (ipTableRules d p v true).length := by
  refine ⟨length_ipTableRules d p v del, ?_⟩
  rw [length_ipTableRules, length_ipTableRules]

/-- C6: only IPv4-representable routes generate forwarding rules — each of
the two VPN rule lists has one entry per IPv4 route, each forward group has
that many entries plus its seven fixed rules, and a connection with one
IPv4 and one IPv6 route contributes exactly one rule to each group. -/
theorem vpn_ipv4_route_rules (d p : String) (vpns : List VPN) (del : Bool)
    (dev r : String) :
    (forwardVPNInputRules (subnet p) vpns).length = ipv4Routes vpns ∧
    (forwardVPNOutputRules (subnet p) vpns).length = ipv4Routes vpns ∧
    (forwardInputRules d p vpns del).length = ipv4Routes vpns + 7 ∧
    (forwardOutputRules d p vpns del).length = ipv4Routes vpns + 7 ∧
    forwardVPNInputRules (subnet p) [⟨dev, [some r, none]⟩] =
      [["-d", r, "-o", dev, "-s", subnet p, "-j", "ACCEPT"]] ∧
    forwardVPNOutputRules (subnet p) [⟨dev, [some r, none]⟩] =
      [["-s", r, "-i", dev, "-d", subnet p, "-m", "state", "--state",
        "RELATED,ESTABLISHED", "-j", "ACCEPT"]] := by
  refine ⟨length_forwardVPNInputRules _ _, length_forwardVPNOutputRules _ _, ?_, ?_, rfl, rfl⟩
  · simp [forwardInputRules, withPre, length_forwardVPNInputRules]
  · simp [forwardOutputRules, withPre, length_forwardVPNOutputRules]

/-- C9: the Builder is deterministic — identical inputs yield identical
RuleSets (the output is a pure function of the four inputs). -/
theorem builder_deterministic (d₁ p₁ : String) (v₁ : List VPN) (m₁ : Bool)
    (d₂ p₂ : String) (v₂ : List VPN) (m₂ : Bool)
    (hd : d₁ = d₂) (hp : p₁ = p₂) (hv : v₁ = v₂) (hm : m₁ = m₂) :
    ipTableRules d₁ p₁ v₁ m₁ = ipTableRules d₂ p₂ v₂ m₂ := by
  subst hd hp hv hm
  rfl

theorem builder_deterministic_witness :
    ("tap0" : String) = "tap0" ∧ ("1.2.3" : String) = "1.2.3" ∧
    ([] : List VPN) = [] ∧ (false = false) ∧
    ipTableRules "tap0" "1.2.3" [] false = ipTableRules "tap0" "1.2.3" [] false :=
  ⟨rfl, rfl, rfl, rfl,
   builder_deterministic "tap0" "1.2.3" [] false "tap0" "1.2.3" [] false rfl rfl rfl rfl⟩

/-- C8: every command of every RuleSet, in both modes, starts with
`iptables -w 3`: the lock-wait flag and the fixed wait value appear on
every command without exception. -/
theorem lock_wait_on_every_command (d p : String) (v : List VPN) (del : Bool)
    (cmd : List String) (hmem : cmd ∈ ipTableRules d p v del) :
    cmd[0]? = some "iptables" ∧ cmd[1]? = some "-w" ∧ cmd[2]? = some xtableLockWait := by
  cases del
  case false =>
    have hmem' : cmd ∈ nat p false ++ chains d false ++ rules d false ++
        inputRules d p false ++ outputRules d p false ++
        forwardOutputRules d p v false ++ forwardInputRules d p v false := hmem
    simp only [List.mem_append] at hmem'
    rcases hmem' with ((((((h | h) | h) | h) | h) | h) | h) <;>
      exact getElem3_of_mem_withPre h
  case true =>
    have hmem' : cmd ∈ forwardInputRules d p v true ++ forwardOutputRules d p v true ++
        outputRules d p true ++ inputRules d p true ++
        rules d true ++ chains d true ++ nat p true := hmem
    simp only [List.mem_append] at hmem'
    rcases hmem' with ((((((h | h) | h) | h) | h) | h) | h) <;>
      exact getElem3_of_mem_withPre h

theorem lock_wait_on_every_command_witness :
    (["iptables", "-w", "3", "-t", "nat", "-A", "POSTROUTING", "-o", "eth0",
      "-s", "1.2.3.0/24", "-j", "MASQUERADE"] ∈ ipTableRules "tap0" "1.2.3" [] false) ∧
    (["iptables", "-w", "3", "-t", "nat", "-A", "POSTROUTING", "-o", "eth0",
      "-s", "1.2.3.0/24", "-j", "MASQUERADE"] : List String)[0]? = some "iptables" ∧
    (["iptables", "-w", "3", "-t", "nat", "-A", "POSTROUTING", "-o", "eth0",
      "-s", "1.2.3.0/24", "-j", "MASQUERADE"] : List String)[1]? = some "-w" ∧
    (["iptables", "-w", "3", "-t", "nat", "-A", "POSTROUTING", "-o", "eth0",
      "-s", "1.2.3.0/24", "-j", "MASQUERADE"] : List String)[2]? = some xtableLockWait := by
  refine ⟨by decide, ?_⟩
  exact lock_wait_on_every_command "tap0" "1.2.3" [] false _ (by decide)

/-- C1: the uninstall RuleSet is exactly the install RuleSet with the
top-level group order reversed and only the action token changed —
`-A` to `-D` at its position, `-N` to `-X` — every other token of every
command unchanged; both RuleSets have the same number of commands. -/
theorem uninstall_mirrors_install (d p : String) (v : List VPN) :
    ipTableRules d p v false =
      nat p false ++ chains d false ++ rules d false ++ inputRules d p false ++
      outputRules d p false ++ forwardOutputRules d p v false ++
      forwardInputRules d p v false ∧
    ipTableRules d p v true =
      ([flipGroup 5 "-D" (nat p false), flipGroup 3 "-X" (chains d false),
        flipGroup 3 "-D" (rules d false), flipGroup 3 "-D" (inputRules d p false),
        flipGroup 3 "-D" (outputRules d p false),
        flipGroup 3 "-D" (forwardOutputRules d p v false),
        flipGroup 3 "-D" (forwardInputRules d p v false)]).reverse.flatten ∧
    ((nat p false).all fun cmd => cmd[5]? == some "-A") = true ∧
    ((chains d false).all fun cmd => cmd[3]? == some "-N") = true ∧
    ((rules d false ++ inputRules d p false ++ outputRules d p false ++
      forwardOutputRules d p v false ++ forwardInputRules d p v false).all
        fun cmd => cmd[3]? == some "-A") = true ∧
    (ipTableRules d p v true).length = (ipTableRules d p v false).length := by
  have hnat : flipGroup 5 "-D" (nat p false) = nat p true := by
    unfold nat; rw [flipGroup5_withPre]; rfl
  have hchains : flipGroup 3 "-X" (chains d false) = chains d true := by
    unfold chains; rw [flipGroup3_withPre]; rfl
  have hrules : flipGroup 3 "-D" (rules d false) = rules d true := by
    unfold rules; rw [flipGroup3_withPre]; rfl
  have hin : flipGroup 3 "-D" (inputRules d p false) = inputRules d p true := by
    unfold inputRules; rw [flipGroup3_withPre]; rfl
  have hout : flipGroup 3 "-D" (outputRules d p false) = outputRules d p true := by
    unfold outputRules; rw [flipGroup3_withPre]; rfl
  have hfo : flipGroup 3 "-D" (forwardOutputRules d p v false) =
      forwardOutputRules d p v true := by
    unfold forwardOutputRules; rw [flipGroup3_withPre]; rfl
  have hfi : flipGroup 3 "-D" (forwardInputRules d p v false) =
      forwardInputRules d p v true := by
    unfold forwardInputRules; rw [flipGroup3_withPre]; rfl
  refine ⟨rfl, ?_, ?_, ?_, ?_, ?_⟩
  · rw [hnat, hchains, hrules, hin, hout, hfo, hfi]
    simp [ipTableRules, List.append_assoc]
  · exact all_action5_withPre "iptables" "-w" xtableLockWait "-t" "nat" "-A" [] _
  · exact all_action3_withPre "iptables" "-w" xtableLockWait "-N" _ _
  · simp only [List.all_append, Bool.and_eq_true]
    refine ⟨⟨⟨⟨?_, ?_⟩, ?_⟩, ?_⟩, ?_⟩ <;>
      exact all_action3_withPre "iptables" "-w" xtableLockWait "-A" _ _
  · rw [length_ipTableRules, length_ipTableRules]

/-- C4: the install RuleSet emits its groups in the order NAT,
chain-creation, jump-wiring, inbound-filter, outbound-filter,
forward-to-device, forward-from-device; the `k`-th per-device chain is
created by the command at index `k + 1`, and every command that references
a per-device chain (as append target or jump target) occurs strictly after
that creation. -/
theorem chain_created_before_use (d p : String) (v : List VPN)
    (i k : Nat) (ch : String) (cmd cmdc : List String)
    (hk : (chainNames d)[k]? = some ch)
    (hc : (ipTableRules d p v false)[k + 1]? = some cmdc)
    (hi : (ipTableRules d p v false)[i]? = some cmd)
    (href : refersToChain ch cmd) :
    createsChain ch cmdc ∧ k + 1 < i ∧
    ipTableRules d p v false =
      nat p false ++ chains d false ++ rules d false ++ inputRules d p false ++
      outputRules d p false ++ forwardOutputRules d p v false ++
      forwardInputRules d p v false := by
  have hI : ipTableRules d p v false =
      ["iptables", "-w", xtableLockWait, "-t", "nat", "-A", "POSTROUTING", "-o",
       "eth0", "-s", subnet p, "-j", "MASQUERADE"] ::
      ["iptables", "-w", xtableLockWait, "-N", "input_" ++ d] ::
      ["iptables", "-w", xtableLockWait, "-N", "output_" ++ d] ::
      ["iptables", "-w", xtableLockWait, "-N", "fwd_input_" ++ d] ::
      ["iptables", "-w", xtableLockWait, "-N", "fwd_output_" ++ d] ::
      (rules d false ++ inputRules d p false ++ outputRules d p false ++
       forwardOutputRules d p v false ++ forwardInputRules d p v false) := rfl
  rcases k with _ | (_ | (_ | (_ | k4)))
  · simp only [chainNames, List.getElem?_cons_zero, Option.some.injEq] at hk
    subst hk
    rw [hI] at hc
    simp only [List.getElem?_cons_succ, List.getElem?_cons_zero, Option.some.injEq] at hc
    subst hc
    have hch : ("input_" ++ d) ∈ chainNames d := by simp [chainNames]
    have hi5 := ref_index_ge5 d p v i _ cmd hch hi href
    exact ⟨⟨rfl, rfl⟩, by omega, rfl⟩
  · simp only [chainNames, List.getElem?_cons_succ, List.getElem?_cons_zero,
      Option.some.injEq] at hk
    subst hk
    rw [hI] at hc
    simp only [List.getElem?_cons_succ, List.getElem?_cons_zero, Option.some.injEq] at hc
    subst hc
    have hch : ("output_" ++ d) ∈ chainNames d := by simp [chainNames]
    have hi5 := ref_index_ge5 d p v i _ cmd hch hi href
    exact ⟨⟨rfl, rfl⟩, by omega, rfl⟩
  · simp only [chainNames, List.getElem?_cons_succ, List.getElem?_cons_zero,
      Option.some.injEq] at hk
    subst hk
    rw [hI] at hc
    simp only [List.getElem?_cons_succ, List.getElem?_cons_zero, Option.some.injEq] at hc
    subst hc
    have hch : ("fwd_input_" ++ d) ∈ chainNames d := by simp [chainNames]
    have hi5 := ref_index_ge5 d p v i _ cmd hch hi href
    exact ⟨⟨rfl, rfl⟩, by omega, rfl⟩
  · simp only [chainNames, List.getElem?_cons_succ, List.getElem?_cons_zero,
      Option.some.injEq] at hk
    subst hk
    rw [hI] at hc
    simp only [List.getElem?_cons_succ, List.getElem?_cons_zero, Option.some.injEq] at hc
    subst hc
    have hch : ("fwd_output_" ++ d) ∈ chainNames d := by simp [chainNames]
    have hi5 := ref_index_ge5 d p v i _ cmd hch hi href
    exact ⟨⟨rfl, rfl⟩, by omega, rfl⟩
  · simp [chainNames] at hk

theorem chain_created_before_use_witness :
    (chainNames "t")[0]? = some "input_t" ∧
    (ipTableRules "t" "1.2.3" [] false)[0 + 1]? =
      some ["iptables", "-w", "3", "-N", "input_t"] ∧
    (ipTableRules "t" "1.2.3" [] false)[5]? =
      some ["iptables", "-w", "3", "-A", "INPUT", "-i", "t", "-j", "input_t"] ∧
    refersToChain "input_t" ["iptables", "-w", "3", "-A", "INPUT", "-i", "t", "-j", "input_t"] ∧
    (createsChain "input_t" ["iptables", "-w", "3", "-N", "input_t"] ∧ 0 + 1 < 5 ∧
      ipTableRules "t" "1.2.3" [] false =
        nat "1.2.3" false ++ chains "t" false ++ rules "t" false ++
        inputRules "t" "1.2.3" false ++ outputRules "t" "1.2.3" false ++
        forwardOutputRules "t" "1.2.3" [] false ++
        forwardInputRules "t" "1.2.3" [] false) := by
  refine ⟨by decide, by decide, by decide, by decide, ?_⟩
  exact chain_created_before_use "t" "1.2.3" [] 5 0 "input_t"
    ["iptables", "-w", "3", "-A", "INPUT", "-i", "t", "-j", "input_t"]
    ["iptables", "-w", "3", "-N", "input_t"]
    (by decide) (by decide) (by decide) (by decide)

/-- C2 (counterexample): for `tap3`/`192.168.50`/no VPNs/install, the
forward-to-device and forward-from-device groups do NOT contain exactly 6
commands each — they contain 7. -/
theorem forward_groups_not_six :
    ¬ ((forwardOutputRules "tap3" "192.168.50" [] false).length = 6 ∧
       (forwardOutputRules "tap3" "192.168.50" [] false).getLast? =
         some ["iptables", "-w", "3", "-A", "fwd_output_tap3", "-j", "DROP"] ∧
       (forwardInputRules "tap3" "192.168.50" [] false).length = 6 ∧
       (forwardInputRules "tap3" "192.168.50" [] false).getLast? =
         some ["iptables", "-w", "3", "-A", "fwd_input_tap3", "-j", "REJECT",
           "--reject-with", "icmp-net-prohibited"]) := by
  decide

/-- C2 (amended): for `tap3`/`192.168.50`/no VPNs/install, the
forward-to-device group contains exactly 7 commands and ends in an
unconditional drop, and the forward-from-device group contains exactly 7
commands and ends in a network-prohibited reject. -/
theorem tap3_forward_groups_seven :
    ipTableRules "tap3" "192.168.50" [] false =
      nat "192.168.50" false ++ chains "tap3" false ++ rules "tap3" false ++
      inputRules "tap3" "192.168.50" false ++ outputRules "tap3" "192.168.50" false ++
      forwardOutputRules "tap3" "192.168.50" [] false ++
      forwardInputRules "tap3" "192.168.50" [] false ∧
    (forwardOutputRules "tap3" "192.168.50" [] false).length = 7 ∧
    (forwardOutputRules "tap3" "192.168.50" [] false).getLast? =
      some ["iptables", "-w", "3", "-A", "fwd_output_tap3", "-j", "DROP"] ∧
    (forwardInputRules "tap3" "192.168.50" [] false).length = 7 ∧
    (forwardInputRules "tap3" "192.168.50" [] false).getLast? =
      some ["iptables", "-w", "3", "-A", "fwd_input_tap3", "-j", "REJECT",
        "--reject-with", "icmp-net-prohibited"] := by
  exact ⟨rfl, by decide, by decide, by decide, by decide⟩

/-- C3: for `tap3`/`192.168.50`/no VPNs/install, the RuleSet begins with
the NAT masquerade command for `192.168.50.0/24` via `eth0`; it has
exactly 4 chain-creation commands and exactly 4 jump-wiring commands; the
inbound-filter group has 7 commands ending in a host-unreachable reject
and the outbound-filter group has 5 commands ending in a
network-prohibited reject. -/
theorem tap3_install_scenario :
    (ipTableRules "tap3" "192.168.50" [] false).head? =
      some ["iptables", "-w", "3", "-t", "nat", "-A", "POSTROUTING", "-o", "eth0",
        "-s", "192.168.50.0/24", "-j", "MASQUERADE"] ∧
    ((ipTableRules "tap3" "192.168.50" [] false).countP
      fun cmd => cmd[3]? == some "-N") = 4 ∧
    ((ipTableRules "tap3" "192.168.50" [] false).countP
      fun cmd => cmd[3]? == some "-A" &&
        (cmd[4]? == some "INPUT" || cmd[4]? == some "OUTPUT" ||
         cmd[4]? == some "FORWARD")) = 4 ∧
    (inputRules "tap3" "192.168.50" false).length = 7 ∧
    (inputRules "tap3" "192.168.50" false).getLast? =
      some ["iptables", "-w", "3", "-A", "input_tap3", "-j", "REJECT",
        "--reject-with", "icmp-host-unreachable"] ∧
    (outputRules "tap3" "192.168.50" false).length = 5 ∧
    (outputRules "tap3" "192.168.50" false).getLast? =
      some ["iptables", "-w", "3", "-A", "output_tap3", "-j", "REJECT",
        "--reject-with", "icmp-net-prohibited"] := by
  decide

/-- C5: the subnet used in emitted rules is exactly `ipPrefix ++ ".0/24"`
and the gateway exactly `ipPrefix ++ ".1"`, with no validation; for the
prefix `10.138.5` (device `tap0`, no VPNs, both modes) every emitted token
that mentions `10.138.5` is exactly the literal `10.138.5.0/24` or
`10.138.5.1`, and both literals occur in the RuleSet. -/
theorem address_derivation (p : String) :
    subnet p = p ++ ".0/24" ∧ gateway p = p ++ ".1" ∧
    subnet "10.138.5" = "10.138.5.0/24" ∧ gateway "10.138.5" = "10.138.5.1" ∧
    (∀ del : Bool,
      ((ipTableRules "tap0" "10.138.5" [] del).all fun cmd => cmd.all fun tok =>
        !(hasSeq "10.138.5".data tok.data) ||
          (tok == "10.138.5.0/24" || tok == "10.138.5.1")) = true ∧
      ((ipTableRules "tap0" "10.138.5" [] del).any fun cmd => cmd.any fun tok =>
        tok == "10.138.5.0/24") = true ∧
      ((ipTableRules "tap0" "10.138.5" [] del).any fun cmd => cmd.any fun tok =>
        tok == "10.138.5.1") = true) := by
  refine ⟨rfl, rfl, by decide, by decide, ?_⟩
  intro del
  cases del <;> exact ⟨by decide, by decide, by decide⟩

/-- C7: the RuleSets for `tapA` (prefix `192.168.50`) and `tapB` (prefix
`192.168.51`) reference disjoint chain-name sets, and no token of either
RuleSet, in either mode, contains the other device's identifier as a
substring. -/
theorem device_namespace_isolation :
    ((chainNames "tapA").all fun ch => !((chainNames "tapB").contains ch)) = true ∧
    (∀ del : Bool,
      ((ipTableRules "tapA" "192.168.50" [] del).all fun cmd => cmd.all fun tok =>
        !(hasSeq "tapB".data tok.data)) = true ∧
      ((ipTableRules "tapB" "192.168.51" [] del).all fun cmd => cmd.all fun tok =>
        !(hasSeq "tapA".data tok.data)) = true) := by
  refine ⟨by decide, ?_⟩
  intro del
  cases del <;> exact ⟨by decide, by decide⟩

end Network
